import Mathlib

set_option autoImplicit false

namespace OddDemo

/-! Shallow embedding of the `oddessentials/odd-demonstration` processor service:
`src/services/processor/main.py`, `src/services/processor/schema_validator.py`,
and the `JobStateMachine` defined in `src/services/processor/tests/test_main.py`.
Python dicts are association lists (first binding wins, assignment replaces in
place or appends); Python exceptions are an explicit `Except` error channel. -/

/-- Python JSON values, as produced by `json.loads`. -/
inductive Json where
  | null
  | bool (b : Bool)
  | num (n : Int)
  | str (s : String)
  | arr (xs : List Json)
  | obj (kvs : List (String × Json))

/-- Python dict lookup `d.get(k)` over an association list: first binding wins. -/
def lookupKey {α : Type} (kvs : List (String × α)) (k : String) : Option α :=
  match kvs with
  | [] => none
  | (k', v) :: rest => if k' = k then some v else lookupKey rest k

/-- Python dict assignment `d[k] = v`: replaces the existing binding in place,
or appends a new binding at the end. -/
def setKey {α : Type} (kvs : List (String × α)) (k : String) (v : α) :
    List (String × α) :=
  match kvs with
  | [] => [(k, v)]
  | (k', v') :: rest => if k' = k then (k', v) :: rest else (k', v') :: setKey rest k v

/-- Python exceptions that the processor's per-message handler can encounter. -/
inductive PyErr where
  | jsonDecodeError
  | attributeError
  | keyError (k : String)
  | typeError
  | valueError (msg : String)
  | fileNotFoundError (msg : String)
  | dbError
  deriving DecidableEq

/-- Python subscript `j[k]`: `KeyError` when the key is absent, `TypeError`
when the value is not a dict. -/
def getItem (j : Json) (k : String) : Except PyErr Json :=
  match j with
  | .obj kvs =>
    match lookupKey kvs k with
    | some v => .ok v
    | none => .error (.keyError k)
  | _ => .error .typeError

/-- Python subscript assignment `j[k] = v` on a dict; `TypeError` otherwise. -/
def setItem (j : Json) (k : String) (v : Json) : Except PyErr Json :=
  match j with
  | .obj kvs => .ok (.obj (setKey kvs k v))
  | _ => .error .typeError

@[simp]
theorem lookupKey_setKey_self {α : Type} (kvs : List (String × α)) (k : String) (v : α) :
    lookupKey (setKey kvs k v) k = some v := by
  induction kvs with
  | nil => simp [setKey, lookupKey]
  | cons hd tl ih =>
    obtain ⟨k', v'⟩ := hd
    by_cases h : k' = k <;> simp [setKey, lookupKey, h, ih]

theorem lookupKey_setKey_ne {α : Type} (kvs : List (String × α)) (k k' : String) (v : α)
    (h : k ≠ k') : lookupKey (setKey kvs k v) k' = lookupKey kvs k' := by
  induction kvs with
  | nil => simp [setKey, lookupKey, h]
  | cons hd tl ih =>
    obtain ⟨k0, v0⟩ := hd
    by_cases h0 : k0 = k
    · subst h0
      simp [setKey, lookupKey, h]
    · simp [setKey, lookupKey, h0, ih]

/-! ## Job state machine

`JobStateMachine` from `src/services/processor/tests/test_main.py` (Phase 12,
G6): legal transitions and idempotent event de-duplication. The Python
`processed_event_ids` set is modelled as a duplicate-free list. -/

/-- `VALID_STATUSES` from test_main.py. -/
def VALID_STATUSES : List String := ["PENDING", "PROCESSING", "COMPLETED", "FAILED"]

/-- `VALID_TRANSITIONS` from test_main.py: `PENDING` may move to `PROCESSING`,
`PROCESSING` to `COMPLETED` or `FAILED`; `COMPLETED` and `FAILED` map to the
empty set, and `.get(self.status, set())` defaults to the empty set. -/
def VALID_TRANSITIONS (s : String) : List String :=
  if s = "PENDING" then ["PROCESSING"]
  else if s = "PROCESSING" then ["COMPLETED", "FAILED"]
  else []

structure JobStateMachine where
  job_id : String
  status : String
  processed_event_ids : List String
  deriving DecidableEq

/-- `JobStateMachine.__init__`: rejects an initial status outside the four
legal values with `ValueError`. -/
def mkJobStateMachine (job_id : String) (initial_status : String) :
    Except PyErr JobStateMachine :=
  if initial_status ∈ VALID_STATUSES then
    .ok ⟨job_id, initial_status, []⟩
  else
    .error (.valueError ("Invalid initial status: " ++ initial_status))

/-- `JobStateMachine.transition`: raises `ValueError` for a target outside the
four legal statuses; otherwise returns whether the move was applied, updating
the status exactly when the target is reachable from the current status. -/
def JobStateMachine.transition (m : JobStateMachine) (new_status : String) :
    Except PyErr (Bool × JobStateMachine) :=
  if new_status ∉ VALID_STATUSES then
    .error (.valueError ("Invalid target status: " ++ new_status))
  else if new_status ∈ VALID_TRANSITIONS m.status then
    .ok (true, { m with status := new_status })
  else
    .ok (false, m)

/-- `JobStateMachine.process_event`: de-duplicates on `event_id` only; the
`delivery_tag` and `redelivered` arguments are logged but never consulted. -/
def JobStateMachine.process_event (m : JobStateMachine) (event_id : String)
    (delivery_tag : Nat) (redelivered : Bool) : String × JobStateMachine :=
  if event_id ∈ m.processed_event_ids then
    ("duplicate", m)
  else
    ("processed", { m with processed_event_ids := event_id :: m.processed_event_ids })

/-- A fresh identifier is reported as processed. -/
theorem process_event_fresh (m : JobStateMachine) (e : String) (t : Nat) (r : Bool)
    (h : e ∉ m.processed_event_ids) : (m.process_event e t r).1 = "processed" := by
  simp [JobStateMachine.process_event, h]

/-- An already-seen identifier is reported as a duplicate. -/
theorem process_event_duplicate (m : JobStateMachine) (e : String) (t : Nat) (r : Bool)
    (h : e ∈ m.processed_event_ids) : (m.process_event e t r).1 = "duplicate" := by
  simp [JobStateMachine.process_event, h]

/-- Membership in the de-dup set after a call. -/
theorem mem_ids_process_event_iff (m : JobStateMachine) (e x : String) (t : Nat) (r : Bool) :
    x ∈ ((m.process_event e t r).2).processed_event_ids
      ↔ x = e ∨ x ∈ m.processed_event_ids := by
  by_cases h : e ∈ m.processed_event_ids
  · simp only [JobStateMachine.process_event, if_pos h]
    constructor
    · exact Or.inr
    · rintro (rfl | hx)
      · exact h
      · exact hx
  · simp [JobStateMachine.process_event, h]

/-- The identifier just handled is always retained in the de-dup set. -/
theorem mem_ids_after_process_event (m : JobStateMachine) (e : String)
    (t : Nat) (r : Bool) :
    e ∈ ((m.process_event e t r).2).processed_event_ids := by
  by_cases h : e ∈ m.processed_event_ids <;>
    simp [JobStateMachine.process_event, h]

/-- The de-dup set only ever grows under `process_event`. -/
theorem ids_mono_process_event (m : JobStateMachine) (e' : String) (t : Nat)
    (r : Bool) (x : String) (hx : x ∈ m.processed_event_ids) :
    x ∈ ((m.process_event e' t r).2).processed_event_ids := by
  by_cases h : e' ∈ m.processed_event_ids <;>
    simp [JobStateMachine.process_event, h, hx]

/-- Folded over any sequence of further calls, the de-dup set still grows. -/
theorem ids_mono_foldl (calls : List (String × Nat × Bool)) (m : JobStateMachine)
    (x : String) (hx : x ∈ m.processed_event_ids) :
    x ∈ (calls.foldl (fun acc c => (acc.process_event c.1 c.2.1 c.2.2).2) m).processed_event_ids := by
  induction calls generalizing m with
  | nil => simpa using hx
  | cons hd tl ih =>
    exact ih _ (ids_mono_process_event m hd.1 hd.2.1 hd.2.2 x hx)

/-- C4: over the four legal statuses, `transition` applies exactly the pairs
PENDING to PROCESSING, PROCESSING to COMPLETED and PROCESSING to FAILED,
updating the status; every other pair (COMPLETED to PROCESSING and PENDING to
COMPLETED included) returns applied=false with the status unchanged, as a
logical no-op rather than an error. -/
theorem C4_transition_table (m : JobStateMachine) (t : String)
    (hs : m.status ∈ VALID_STATUSES) (ht : t ∈ VALID_STATUSES) :
    ((m.status, t) ∈ [("PENDING", "PROCESSING"), ("PROCESSING", "COMPLETED"),
        ("PROCESSING", "FAILED")] →
      m.transition t = .ok (true, { m with status := t }))
    ∧ ((m.status, t) ∉ [("PENDING", "PROCESSING"), ("PROCESSING", "COMPLETED"),
        ("PROCESSING", "FAILED")] →
      m.transition t = .ok (false, m)) := by
  simp only [VALID_STATUSES, List.mem_cons, List.not_mem_nil, or_false] at hs ht
  rcases hs with h | h | h | h <;> rcases ht with h2 | h2 | h2 | h2 <;>
    constructor <;> intro hmem <;>
    simp_all [JobStateMachine.transition, VALID_TRANSITIONS, VALID_STATUSES]

/-- C4 witness: COMPLETED to PROCESSING is rejected with the status unchanged. -/
theorem C4_transition_table_witness :
    JobStateMachine.transition ⟨"job-004", "COMPLETED", []⟩ "PROCESSING"
      = .ok (false, ⟨"job-004", "COMPLETED", []⟩) := by
  exact (C4_transition_table ⟨"job-004", "COMPLETED", []⟩ "PROCESSING"
    (by simp [VALID_STATUSES]) (by simp [VALID_STATUSES])).2 (by simp)

/-- C5: `process_event` ignores delivery_tag and redelivered; a fresh
identifier yields `processed`; after a first call with an identifier, every
subsequent call with it (through any interleaved sequence of other calls)
yields `duplicate`; and two distinct fresh identifiers both yield `processed`
and are both retained in the de-dup set. -/
theorem C5_process_event_idempotency (m : JobStateMachine) (e1 e2 : String)
    (t1 t2 : Nat) (r1 r2 : Bool) :
    (m.process_event e1 t1 r1 = m.process_event e1 t2 r2)
    ∧ (e1 ∉ m.processed_event_ids → (m.process_event e1 t1 r1).1 = "processed")
    ∧ (∀ calls : List (String × Nat × Bool),
        ((calls.foldl (fun acc c => (acc.process_event c.1 c.2.1 c.2.2).2)
            ((m.process_event e1 t1 r1).2)).process_event e1 t2 r2).1 = "duplicate")
    ∧ (e1 ≠ e2 → e1 ∉ m.processed_event_ids → e2 ∉ m.processed_event_ids →
        (m.process_event e1 t1 r1).1 = "processed"
        ∧ (((m.process_event e1 t1 r1).2).process_event e2 t2 r2).1 = "processed"
        ∧ e1 ∈ ((((m.process_event e1 t1 r1).2).process_event e2 t2 r2).2).processed_event_ids
        ∧ e2 ∈ ((((m.process_event e1 t1 r1).2).process_event e2 t2 r2).2).processed_event_ids) := by
  refine ⟨?_, ?_, ?_, ?_⟩
  · simp [JobStateMachine.process_event]
  · exact process_event_fresh m e1 t1 r1
  · intro calls
    exact process_event_duplicate _ e1 t2 r2
      (ids_mono_foldl calls ((m.process_event e1 t1 r1).2) e1
        (mem_ids_after_process_event m e1 t1 r1))
  · intro hne h1 h2
    have h2' : e2 ∉ ((m.process_event e1 t1 r1).2).processed_event_ids := by
      rw [mem_ids_process_event_iff]
      rintro (rfl | hc)
      · exact hne rfl
      · exact h2 hc
    refine ⟨process_event_fresh m e1 t1 r1 h1, process_event_fresh _ e2 t2 r2 h2', ?_, ?_⟩
    · exact ids_mono_process_event _ e2 t2 r2 e1 (mem_ids_after_process_event m e1 t1 r1)
    · exact mem_ids_after_process_event _ e2 t2 r2

/-- C5 witness: concrete run matching the idempotency tests. -/
theorem C5_process_event_idempotency_witness :
    (JobStateMachine.process_event ⟨"job-idempotent-001", "PENDING", []⟩
        "evt-abc-123" 1 false).1 = "processed"
    ∧ ((JobStateMachine.process_event
        ((JobStateMachine.process_event ⟨"job-idempotent-001", "PENDING", []⟩
          "evt-abc-123" 1 false).2) "evt-002" 2 false).1 = "processed") := by
  have h := C5_process_event_idempotency ⟨"job-idempotent-001", "PENDING", []⟩
    "evt-abc-123" "evt-002" 1 2 false false
  have h4 := h.2.2.2 (by decide) (by simp) (by simp)
  exact ⟨h4.1, h4.2.1⟩

/-! ## Schema validator

`src/services/processor/schema_validator.py`. The schema documents and the
jsonschema Draft7 checker are external artifacts; they are abstracted as an
environment giving, per schema name, whether the schema file exists and the
list of structural violations (json_path, message) the compiled validator
reports for a value. The per-name cache is elided: the model is pure, so
loading once and loading every time give the same result. -/

structure SchemaEnv where
  schemaExists : String → Bool
  iterErrors : String → Json → List (String × String)

/-- `SchemaValidator._load_schema`: raises `FileNotFoundError` when the schema
file is absent (the message carries the schema path; the model keeps the
schema name). -/
def loadSchema (env : SchemaEnv) (name : String) : Except PyErr Unit :=
  if env.schemaExists name then .ok ()
  else .error (.fileNotFoundError ("Schema not found: " ++ name))

/-- Diagnostic rendering: at most the first three violations, each as
json_path: message, joined by semicolons. -/
def formatErrors (errs : List (String × String)) : String :=
  String.intercalate "; " ((errs.take 3).map (fun e => e.1 ++ ": " ++ e.2))

/-- Shared body of `validate_event_envelope` and `validate_job`: load the
named schema and report violations; `FileNotFoundError` is caught and
returned as a validation failure. -/
def validateAgainst (env : SchemaEnv) (name : String) (value : Json) :
    Bool × Option String :=
  match loadSchema env name with
  | .error (.fileNotFoundError msg) => (false, some msg)
  | .error _ => (false, some "Validation error")
  | .ok () =>
    match env.iterErrors name value with
    | [] => (true, none)
    | errs => (false, some (formatErrors errs))

/-- `SchemaValidator.validate_event_envelope`. -/
def validate_event_envelope (env : SchemaEnv) (event : Json) : Bool × Option String :=
  validateAgainst env "event-envelope" event

/-- `SchemaValidator.validate_job`. -/
def validate_job (env : SchemaEnv) (job : Json) : Bool × Option String :=
  validateAgainst env "job" job

/-- Python f-string rendering of the optional diagnostic (None prints as
the text None). -/
def optDiagText : Option String → String
  | some s => s
  | none => "None"

/-- `SchemaValidator.validate_message`: envelope stage first, then the job
payload stage when `eventType` starts with the job namespace. A non-dict
event or a non-string eventType reaching the second stage raises
`AttributeError` (uncaught in the Python source). -/
def validate_message (env : SchemaEnv) (event : Json) :
    Except PyErr (Bool × Option String) :=
  match validate_event_envelope env event with
  | (false, err) => .ok (false, some ("Envelope validation failed: " ++ optDiagText err))
  | (true, _) =>
    match event with
    | .obj kvs =>
      match (lookupKey kvs "eventType").getD (.str "") with
      | .str t =>
        if t.startsWith "job." then
          match validate_job env ((lookupKey kvs "payload").getD (.obj [])) with
          | (false, err) =>
            .ok (false, some ("Payload validation failed: " ++ optDiagText err))
          | (true, _) => .ok (true, none)
        else .ok (true, none)
      | _ => .error .attributeError
    | _ => .error .attributeError

/-! ## Pipeline orchestrator

`process_job` from `src/services/processor/main.py`. The handler's observable
actions (counter increments, database round trips, queue publishes,
acknowledgments) are recorded as an effect trace; log prints and the
cursor/connection close calls are elided (they carry no claim-relevant
state). External nondeterminism is an environment: the `json.loads` result,
the `validate_message` implementation, which database round trip (if any)
raises, and the clock/uuid/version values. -/

/-- `main.get_correlation_id`: `event.get('correlationId', 'unknown')`. The
attribute access `.get` raises `AttributeError` on a non-dict value; the
value returned for a present key is whatever the envelope holds. -/
def get_correlation_id (event : Json) : Except PyErr Json :=
  match event with
  | .obj kvs => .ok ((lookupKey kvs "correlationId").getD (.str "unknown"))
  | _ => .error .attributeError

def QUEUE_NAME : String := "jobs.created"
def OUT_QUEUE : String := "jobs.completed"
def DLQ_NAME : String := "jobs.failed.validation"

/-- The two SQL statements of the upsert, with their parameter values. The
source passes `json.dumps(job_data['payload'])` for the payload column; the
model carries the Json value itself. -/
inductive DbWrite where
  | upsert (id ty : Json) (status : String) (payload : Json) (createdAt : Json)
      (conflictStatus : String)
  | setStatusCompleted (status : String) (id : Json)

inductive Effect where
  | incProcessed
  | incCompleted
  | incFailed
  | incValidationFailed
  | observeProcessingTime
  | dbConnect
  | dbExec (w : DbWrite)
  | dbCommit
  | publish (routingKey : String) (body : Json) (persistent : Bool)
  | ack (deliveryTag : Nat)
  | nack (deliveryTag : Nat) (requeue : Bool)

structure Env where
  /-- `json.loads(body)`: `none` means `json.JSONDecodeError`. -/
  parsed : Option Json
  /-- The imported `validate_message` (see the schema validator model). -/
  validate : Json → Except PyErr (Bool × Option String)
  /-- Which database round trip raises, if any: 0 = connect, 1 = insert
  execute, 2 = first commit, 3 = update execute, 4 = second commit. -/
  dbFailAt : Option Nat
  /-- `time.strftime('%Y-%m-%dT%H:%M:%SZ', time.gmtime())`. -/
  nowIso : String
  /-- `str(uuid.uuid4())`. -/
  freshEventId : String
  /-- `SERVICE_VERSION`. -/
  serviceVersion : String

/-- The Dead-Letter Record `dlq_message` built on validation failure. -/
def dlqRecord (env : Env) (event : Json) (validationError : Option String)
    (corrId : Json) : Json :=
  .obj [("original_event", event),
        ("validation_error", match validationError with
          | some s => .str s
          | none => .null),
        ("rejected_at", .str env.nowIso),
        ("correlation_id", corrId),
        ("service", .str "processor"),
        ("service_version", .str env.serviceVersion)]

/-- Lines 106-110 of main.py: `completion_event = event.copy()`, three
top-level assignments, then the nested
`completion_event['producer']['service'] = 'processor'` (the value the
publish call serializes; the aliasing side of the copy is modelled separately
with an explicit heap below). -/
def deriveCompletion (env : Env) (event : Json) : Except PyErr Json :=
  match setItem event "eventType" (.str "job.completed") with
  | .error e => .error e
  | .ok c1 =>
    match setItem c1 "eventId" (.str env.freshEventId) with
    | .error e => .error e
    | .ok c2 =>
      match setItem c2 "occurredAt" (.str env.nowIso) with
      | .error e => .error e
      | .ok c3 =>
        match getItem c3 "producer" with
        | .error e => .error e
        | .ok producer =>
          match setItem producer "service" (.str "processor") with
          | .error e => .error e
          | .ok producer' => setItem c3 "producer" producer'

/-- The `try:` body of `process_job` (lines 48-116): returns the effects
performed before returning or raising, and the outcome. Python evaluates the
parameter tuple of the first `cur.execute` before the call, so the job
sub-field subscripts run after `psycopg2.connect` and before the insert. -/
def tryBody (env : Env) (tag : Nat) : List Effect × Except PyErr Unit :=
  match env.parsed with
  | none => ([], .error .jsonDecodeError)
  | some event =>
    match get_correlation_id event with
    | .error e => ([], .error e)
    | .ok corrId =>
      match env.validate event with
      | .error e => ([], .error e)
      | .ok (false, verr) =>
        ([.incValidationFailed,
          .publish DLQ_NAME (dlqRecord env event verr corrId) true,
          .nack tag false], .ok ())
      | .ok (true, _) =>
        match getItem event "payload" with
        | .error e => ([], .error e)
        | .ok job_data =>
          match getItem job_data "id" with
          | .error e => ([], .error e)
          | .ok job_id =>
            if env.dbFailAt = some 0 then ([], .error .dbError) else
            match getItem job_data "type" with
            | .error e => ([.dbConnect], .error e)
            | .ok jty =>
              match getItem job_data "payload" with
              | .error e => ([.dbConnect], .error e)
              | .ok jpl =>
                match getItem job_data "createdAt" with
                | .error e => ([.dbConnect], .error e)
                | .ok jca =>
                  if env.dbFailAt = some 1 then
                    ([.dbConnect], .error .dbError) else
                  let ins : Effect :=
                    .dbExec (.upsert job_id jty "EXECUTING" jpl jca "EXECUTING")
                  if env.dbFailAt = some 2 then
                    ([.dbConnect, ins], .error .dbError) else
                  if env.dbFailAt = some 3 then
                    ([.dbConnect, ins, .dbCommit], .error .dbError) else
                  let upd : Effect := .dbExec (.setStatusCompleted "COMPLETED" job_id)
                  if env.dbFailAt = some 4 then
                    ([.dbConnect, ins, .dbCommit, upd], .error .dbError) else
                  match deriveCompletion env event with
                  | .error e =>
                    ([.dbConnect, ins, .dbCommit, upd, .dbCommit], .error e)
                  | .ok completion =>
                    ([.dbConnect, ins, .dbCommit, upd, .dbCommit,
                      .publish OUT_QUEUE completion false,
                      .ack tag, .incCompleted, .observeProcessingTime], .ok ())

/-- `process_job`: `JOBS_PROCESSED.inc()` first, then the `try:` body, then
the two exception handlers: `json.JSONDecodeError` increments the
validation-failure counter and nacks without requeue; any other exception
increments the failure counter and nacks with requeue. -/
def process_job (env : Env) (tag : Nat) : List Effect :=
  let r := tryBody env tag
  .incProcessed ::
    (r.1 ++
      match r.2 with
      | .ok () => []
      | .error .jsonDecodeError => [.incValidationFailed, .nack tag false]
      | .error _ => [.incFailed, .nack tag true])

/-- Status strings an effect writes to the jobs table. -/
def statusesOf : Effect → List String
  | .dbExec (.upsert _ _ st _ _ cst) => [st, cst]
  | .dbExec (.setStatusCompleted st _) => [st]
  | _ => []

/-- All status strings a trace writes to the jobs table. -/
def statusesWritten : List Effect → List String
  | [] => []
  | e :: rest => statusesOf e ++ statusesWritten rest

@[simp]
theorem statusesWritten_nil : statusesWritten [] = [] := rfl

@[simp]
theorem statusesWritten_cons (e : Effect) (rest : List Effect) :
    statusesWritten (e :: rest) = statusesOf e ++ statusesWritten rest := rfl

@[simp]
theorem statusesWritten_append (l l' : List Effect) :
    statusesWritten (l ++ l') = statusesWritten l ++ statusesWritten l' := by
  induction l with
  | nil => simp
  | cons hd tl ih => simp [ih]

def isDbWriteEffect : Effect → Bool
  | .dbExec _ => true
  | _ => false

def isPublishTo (q : String) : Effect → Bool
  | .publish q' _ _ => q' == q
  | _ => false

def isAckEffect : Effect → Bool
  | .ack _ => true
  | _ => false

def isNackEffect : Effect → Bool
  | .nack _ _ => true
  | _ => false

/-! ## Claims about the per-message handler -/

/-- C2: a message that parses as a JSON object but fails contract validation
produces zero persistence writes, exactly one Dead-Letter Record (original
event, validation diagnostic, rejection timestamp, correlation identifier,
service name and version — see `dlqRecord`) published to the quarantine
queue, and exactly one negative acknowledgment with redelivery disabled. -/
theorem C2_validation_failure_path (env : Env) (tag : Nat)
    (kvs : List (String × Json)) (verr : Option String)
    (hp : env.parsed = some (.obj kvs))
    (hv : env.validate (.obj kvs) = .ok (false, verr)) :
    process_job env tag =
      [.incProcessed, .incValidationFailed,
       .publish DLQ_NAME
         (dlqRecord env (.obj kvs) verr
           ((lookupKey kvs "correlationId").getD (.str "unknown"))) true,
       .nack tag false]
    ∧ (process_job env tag).countP isDbWriteEffect = 0
    ∧ .dbConnect ∉ process_job env tag
    ∧ (process_job env tag).countP (isPublishTo DLQ_NAME) = 1
    ∧ (process_job env tag).countP isNackEffect = 1
    ∧ .nack tag false ∈ process_job env tag := by
  have htrace : process_job env tag =
      [.incProcessed, .incValidationFailed,
       .publish DLQ_NAME
         (dlqRecord env (.obj kvs) verr
           ((lookupKey kvs "correlationId").getD (.str "unknown"))) true,
       .nack tag false] := by
    simp [process_job, tryBody, hp, hv, get_correlation_id]
  refine ⟨htrace, ?_, ?_, ?_, ?_, ?_⟩ <;> rw [htrace] <;>
    simp [List.countP_cons, List.countP_nil, isDbWriteEffect, isPublishTo,
      isNackEffect]

/-- Environment for the C2 witness: an envelope with only an eventType and a
correlationId, rejected by the validator. -/
def envC2 : Env :=
  { parsed := some (.obj [("eventType", .str "job.created"),
      ("correlationId", .str "corr-invalid")]),
    validate := fun _ => .ok (false, some "Missing required field: eventId"),
    dbFailAt := none,
    nowIso := "2025-01-01T00:00:00Z",
    freshEventId := "new-event-id",
    serviceVersion := "0.1.0" }

/-- C2 witness: the concrete invalid envelope takes exactly the quarantine
path. -/
theorem C2_validation_failure_path_witness :
    process_job envC2 456 =
      [.incProcessed, .incValidationFailed,
       .publish DLQ_NAME
         (dlqRecord envC2
           (.obj [("eventType", .str "job.created"),
             ("correlationId", .str "corr-invalid")])
           (some "Missing required field: eventId") (.str "corr-invalid")) true,
       .nack 456 false]
    ∧ (process_job envC2 456).countP isDbWriteEffect = 0 := by
  have h := C2_validation_failure_path envC2 456
    [("eventType", .str "job.created"), ("correlationId", .str "corr-invalid")]
    (some "Missing required field: eventId") rfl rfl
  exact ⟨h.1, h.2.1⟩

/-- Every subscript either succeeds or raises KeyError (key absent on a
dict) or TypeError (not a dict). -/
theorem getItem_cases (j : Json) (k : String) :
    (∃ v, getItem j k = .ok v)
    ∨ getItem j k = .error (.keyError k)
    ∨ getItem j k = .error .typeError := by
  rcases j with _ | b | n | s | xs | kvs
  · exact Or.inr (Or.inr rfl)
  · exact Or.inr (Or.inr rfl)
  · exact Or.inr (Or.inr rfl)
  · exact Or.inr (Or.inr rfl)
  · exact Or.inr (Or.inr rfl)
  · rcases hl : lookupKey kvs k with _ | v
    · exact Or.inr (Or.inl (by simp [getItem, hl]))
    · exact Or.inl ⟨v, by simp [getItem, hl]⟩

/-- C3: for a validated envelope whose persistence stage raises at any of its
five round trips (connect, insert execute, first commit, update execute,
second commit), the handler increments the processing-failure counter, issues
exactly one negative acknowledgment with redelivery requested, and publishes
no completion event. Beyond the envelope payload and the job id — whose
presence contract validation guarantees — no shape of the job object is
assumed: a job lacking an optional sub-field (so that evaluating the upsert
parameters raises KeyError inside the persistence stage) lands on the same
retry path. -/
theorem C3_persistence_failure_path (env : Env) (tag : Nat)
    (kvs : List (String × Json)) (oe : Option String)
    (jd jid : Json) (k : Fin 5)
    (hp : env.parsed = some (.obj kvs))
    (hv : env.validate (.obj kvs) = .ok (true, oe))
    (hjd : getItem (.obj kvs) "payload" = .ok jd)
    (hid : getItem jd "id" = .ok jid)
    (hfail : env.dbFailAt = some k.val) :
    .incFailed ∈ process_job env tag
    ∧ (process_job env tag).countP isNackEffect = 1
    ∧ .nack tag true ∈ process_job env tag
    ∧ (process_job env tag).countP (isPublishTo OUT_QUEUE) = 0
    ∧ (process_job env tag).countP isAckEffect = 0 := by
  fin_cases k <;>
    rcases getItem_cases jd "type" with ⟨jty, hty⟩ | hty | hty <;>
    rcases getItem_cases jd "payload" with ⟨jpl, hpl⟩ | hpl | hpl <;>
    rcases getItem_cases jd "createdAt" with ⟨jca, hca⟩ | hca | hca <;>
    simp_all [process_job, tryBody, get_correlation_id, List.countP_cons,
      List.countP_nil, isNackEffect, isAckEffect, isPublishTo, OUT_QUEUE,
      DLQ_NAME]

/-- Job object with all four required fields and a nested payload, mirroring
the valid message body of TestProcessJobSuccess in test_main.py. -/
def jobFull : Json :=
  .obj [("id", .str "550e8400-e29b-41d4-a716-446655440000"),
        ("type", .str "compute"),
        ("status", .str "PENDING"),
        ("createdAt", .str "2025-01-01T00:00:00Z"),
        ("payload", .obj [("data", .str "test")])]

/-- A well-formed job.created envelope embedding `jobFull`. -/
def envelopeFull : Json :=
  .obj [("contractVersion", .str "1.0.0"),
        ("eventType", .str "job.created"),
        ("eventId", .str "evt-123"),
        ("occurredAt", .str "2025-01-01T00:00:00Z"),
        ("correlationId", .str "corr-abc"),
        ("idempotencyKey", .str "idem-xyz"),
        ("producer", .obj [("service", .str "gateway"),
          ("instanceId", .str "gw-1"), ("version", .str "0.1.0")]),
        ("payload", jobFull)]

/-- Payload-less job of scenario D (test_db_exception_requeues_message in
test_main.py): id, type, status, createdAt and no optional payload. -/
def jobScenarioD : Json :=
  .obj [("id", .str "660e8400-e29b-41d4-a716-446655440000"),
        ("type", .str "compute"),
        ("status", .str "PENDING"),
        ("createdAt", .str "2025-01-01T00:00:00Z")]

/-- Environment for the C3 witness, the scenario-D input: a validated
envelope whose embedded job lacks the optional payload sub-field, and
`psycopg2.connect` raises a connectivity error. -/
def envC3 : Env :=
  { parsed := some (.obj [("contractVersion", .str "1.0.0"),
      ("eventType", .str "job.created"),
      ("eventId", .str "evt-db-fail"),
      ("occurredAt", .str "2025-01-01T00:00:00Z"),
      ("correlationId", .str "corr-db-fail"),
      ("idempotencyKey", .str "idem-db-fail"),
      ("producer", .obj [("service", .str "test"),
        ("instanceId", .str "t-1"), ("version", .str "0.1.0")]),
      ("payload", jobScenarioD)]),
    validate := fun _ => .ok (true, none),
    dbFailAt := some 0,
    nowIso := "2025-01-01T00:00:00Z",
    freshEventId := "new-event-id",
    serviceVersion := "0.1.0" }

/-- C3 witness: a connectivity error on connect, on a validated envelope
whose job has no payload sub-field, takes the retry path. -/
theorem C3_persistence_failure_path_witness :
    .incFailed ∈ process_job envC3 999
    ∧ (process_job envC3 999).countP isNackEffect = 1
    ∧ .nack 999 true ∈ process_job envC3 999
    ∧ (process_job envC3 999).countP (isPublishTo OUT_QUEUE) = 0 := by
  have h := C3_persistence_failure_path envC3 999
    [("contractVersion", .str "1.0.0"), ("eventType", .str "job.created"),
     ("eventId", .str "evt-db-fail"),
     ("occurredAt", .str "2025-01-01T00:00:00Z"),
     ("correlationId", .str "corr-db-fail"),
     ("idempotencyKey", .str "idem-db-fail"),
     ("producer", .obj [("service", .str "test"),
       ("instanceId", .str "t-1"), ("version", .str "0.1.0")]),
     ("payload", jobScenarioD)]
    none jobScenarioD (.str "660e8400-e29b-41d4-a716-446655440000") 0
    rfl rfl rfl rfl rfl
  exact ⟨h.1, h.2.1, h.2.2.1, h.2.2.2.1⟩

/-- Job object lacking the optional `payload` sub-field, mirroring
TestContractCompliance in test_main.py and the golden fixture
event-envelope-valid.json (payload is optional per the job contract). -/
def jobNoPayload : Json :=
  .obj [("id", .str "770e8400-e29b-41d4-a716-446655440002"),
        ("type", .str "test-job"),
        ("status", .str "PENDING"),
        ("createdAt", .str "2025-01-01T12:00:00Z")]

/-- A validated job.created envelope whose embedded job lacks `payload`; the
validator accepts it because the job contract marks `payload` optional. -/
def envC1 : Env :=
  { parsed := some (.obj [("contractVersion", .str "1.0.0"),
      ("eventType", .str "job.created"),
      ("eventId", .str "evt-770"),
      ("occurredAt", .str "2025-01-01T12:00:00Z"),
      ("correlationId", .str "corr-770"),
      ("idempotencyKey", .str "idem-770"),
      ("producer", .obj [("service", .str "gateway"),
        ("instanceId", .str "gw-1"), ("version", .str "0.1.0")]),
      ("payload", jobNoPayload)]),
    validate := fun _ => .ok (true, none),
    dbFailAt := none,
    nowIso := "2025-01-01T12:00:00Z",
    freshEventId := "new-event-id",
    serviceVersion := "0.1.0" }

/-- C1: on a validated envelope whose job lacks the `payload` sub-field, the
handler does NOT persist an empty object and complete normally: evaluating
`job_data['payload']` in the upsert parameters raises KeyError, so the run
takes the transient-failure path (failure counter, nack with requeue) after
connecting, with no write, no completion event, and no acknowledgment. This
contradicts the contract-compliance tests, which require the extraction to
yield an empty dict and never fail. -/
theorem C1_missing_payload_keyerror :
    tryBody envC1 5 = ([.dbConnect], .error (.keyError "payload"))
    ∧ process_job envC1 5 = [.incProcessed, .dbConnect, .incFailed, .nack 5 true] := by
  exact ⟨rfl, rfl⟩

/-- Environment whose message body parses to the JSON number 5. -/
def envC7 : Env :=
  { parsed := some (.num 5),
    validate := fun _ => .ok (true, none),
    dbFailAt := none,
    nowIso := "2025-01-01T00:00:00Z",
    freshEventId := "e",
    serviceVersion := "0.1.0" }

/-- C7 counterexample: a message body that parses to the JSON number 5 (not
an object) makes `get_correlation_id` raise AttributeError — extraction does
not return the literal unknown — and the handler falls into the generic
exception path (nack with requeue). -/
theorem C7_counterexample_nonobject :
    get_correlation_id (.num 5) = .error .attributeError
    ∧ process_job envC7 7 = [.incProcessed, .incFailed, .nack 7 true] := by
  exact ⟨rfl, rfl⟩

/-- C7 amended: for every parsed value that is a JSON object,
`get_correlation_id` never raises — it returns the envelope's correlationId
value when present and the literal unknown otherwise; for every non-object
parsed value (null, boolean, number, string, array) it raises
AttributeError. -/
theorem C7_amended_correlation_extraction :
    (∀ kvs : List (String × Json),
      get_correlation_id (.obj kvs)
        = .ok ((lookupKey kvs "correlationId").getD (.str "unknown")))
    ∧ get_correlation_id .null = .error .attributeError
    ∧ (∀ b, get_correlation_id (.bool b) = .error .attributeError)
    ∧ (∀ n, get_correlation_id (.num n) = .error .attributeError)
    ∧ (∀ s, get_correlation_id (.str s) = .error .attributeError)
    ∧ (∀ xs, get_correlation_id (.arr xs) = .error .attributeError) := by
  exact ⟨fun _ => rfl, rfl, fun _ => rfl, fun _ => rfl, fun _ => rfl, fun _ => rfl⟩

/-- Every status string the try body writes is EXECUTING or COMPLETED. -/
theorem tryBody_statuses (env : Env) (tag : Nat) :
    ∀ s ∈ statusesWritten (tryBody env tag).1, s = "EXECUTING" ∨ s = "COMPLETED" := by
  intro s hs
  simp only [tryBody] at hs
  repeat' split at hs
  all_goals simp_all [statusesOf]

/-- The exception handlers of `process_job` write no statuses: the statuses
written by a run are exactly those of the try body. -/
theorem statusesWritten_process_job (env : Env) (tag : Nat) :
    statusesWritten (process_job env tag) = statusesWritten (tryBody env tag).1 := by
  simp only [process_job, statusesWritten_cons, statusesWritten_append,
    statusesOf, List.nil_append]
  generalize (tryBody env tag).2 = r
  rcases r with e | ⟨⟩
  · cases e <;> simp [statusesOf]
  · simp

/-- Environment for a full success run: valid envelope, validator passes,
every database round trip succeeds. -/
def envSuccess : Env :=
  { parsed := some envelopeFull,
    validate := fun _ => .ok (true, none),
    dbFailAt := none,
    nowIso := "2025-01-01T00:00:00Z",
    freshEventId := "new-event-id",
    serviceVersion := "0.1.0" }

/-- C8 counterexample: on a successful run the initial write of the upsert
stores status EXECUTING (both as insert value and conflict-update value),
which is outside the four legal statuses, so not every status written is
legal. -/
theorem C8_counterexample_executing :
    ¬ (∀ s ∈ statusesWritten (process_job envSuccess 1), s ∈ VALID_STATUSES) := by
  intro h
  have hs : statusesWritten (process_job envSuccess 1)
      = ["EXECUTING", "EXECUTING", "COMPLETED"] := rfl
  have hmem : "EXECUTING" ∈ statusesWritten (process_job envSuccess 1) := by
    rw [hs]
    simp
  have := h "EXECUTING" hmem
  simp [VALID_STATUSES] at this

/-- C8 amended: every status value any run of the handler writes to the jobs
table is either EXECUTING (the initial write of the upsert, in both of its
two status parameters) or COMPLETED (the completion write); EXECUTING is not
among the four legal statuses of the data model. -/
theorem C8_amended_statuses (env : Env) (tag : Nat) :
    (∀ s ∈ statusesWritten (process_job env tag), s = "EXECUTING" ∨ s = "COMPLETED")
    ∧ "EXECUTING" ∉ VALID_STATUSES := by
  constructor
  · intro s hs
    rw [statusesWritten_process_job] at hs
    exact tryBody_statuses env tag s hs
  · simp [VALID_STATUSES]

/-- C8 amended witness: the COMPLETED written by the success run is covered. -/
theorem C8_amended_statuses_witness :
    ("COMPLETED" = "EXECUTING" ∨ "COMPLETED" = "COMPLETED")
    ∧ "EXECUTING" ∉ VALID_STATUSES := by
  refine ⟨(C8_amended_statuses envSuccess 1).1 "COMPLETED" ?_,
    (C8_amended_statuses envSuccess 1).2⟩
  have hs : statusesWritten (process_job envSuccess 1)
      = ["EXECUTING", "EXECUTING", "COMPLETED"] := rfl
  rw [hs]
  simp

/-- Schema environment in which no contract file exists. -/
def noSchemas : SchemaEnv :=
  { schemaExists := fun _ => false,
    iterErrors := fun _ _ => [] }

def eventC6 : Json := .obj [("eventType", .str "job.created")]

/-- Orchestrator environment wired to the real validator model with the
contract files missing. -/
def envMissingSchema : Env :=
  { parsed := some eventC6,
    validate := validate_message noSchemas,
    dbFailAt := none,
    nowIso := "2025-01-01T00:00:00Z",
    freshEventId := "e",
    serviceVersion := "0.1.0" }

/-- C6 counterexample: with the contract file missing, validation is NOT a
fatal startup condition in the per-message path — `validate_event_envelope`
catches the FileNotFoundError and returns it as an ordinary per-message
validation failure, and the handler quarantines the message to the DLQ with
a nack, exactly the per-message failure treatment the claim rules out. -/
theorem C6_counterexample_missing_schema :
    validate_event_envelope noSchemas eventC6
      = (false, some "Schema not found: event-envelope")
    ∧ process_job envMissingSchema 3 =
        [.incProcessed, .incValidationFailed,
         .publish DLQ_NAME
           (dlqRecord envMissingSchema eventC6
             (some "Envelope validation failed: Schema not found: event-envelope")
             (.str "unknown")) true,
         .nack 3 false] := by
  exact ⟨rfl, rfl⟩

/-- C6 amended: a missing contract file is not detected at startup (schemas
load lazily on first validation and `main` never touches them before
consuming); it surfaces per message: for every inbound event,
`validate_event_envelope` returns a validation failure whose diagnostic names
the missing schema, so each message is quarantined rather than the process
refusing to start. -/
theorem C6_amended_missing_schema (env : SchemaEnv) (event : Json)
    (h : env.schemaExists "event-envelope" = false) :
    validate_event_envelope env event
      = (false, some "Schema not found: event-envelope") := by
  simp [validate_event_envelope, validateAgainst, loadSchema, h]

/-- C6 amended witness. -/
theorem C6_amended_missing_schema_witness :
    validate_event_envelope noSchemas .null
      = (false, some "Schema not found: event-envelope") :=
  C6_amended_missing_schema noSchemas .null rfl

/-- C9: on a successful run the published Completion Event is the triggering
envelope with eventType rewritten to job.completed, a fresh eventId,
occurredAt set to publish time, and producer.service rewritten to processor,
while every other top-level key — correlationId and idempotencyKey included —
is carried through unchanged. -/
theorem C9_completion_event (env : Env) (tag : Nat)
    (kvs pkvs : List (String × Json)) (oe : Option String)
    (jd jid jty jpl jca : Json)
    (hp : env.parsed = some (.obj kvs))
    (hv : env.validate (.obj kvs) = .ok (true, oe))
    (hjd : getItem (.obj kvs) "payload" = .ok jd)
    (hid : getItem jd "id" = .ok jid)
    (hty : getItem jd "type" = .ok jty)
    (hpl : getItem jd "payload" = .ok jpl)
    (hca : getItem jd "createdAt" = .ok jca)
    (hdb : env.dbFailAt = none)
    (hprod : lookupKey kvs "producer" = some (.obj pkvs)) :
    ∃ ckvs : List (String × Json),
      process_job env tag =
        [.incProcessed, .dbConnect,
         .dbExec (.upsert jid jty "EXECUTING" jpl jca "EXECUTING"), .dbCommit,
         .dbExec (.setStatusCompleted "COMPLETED" jid), .dbCommit,
         .publish OUT_QUEUE (.obj ckvs) false,
         .ack tag, .incCompleted, .observeProcessingTime]
      ∧ lookupKey ckvs "eventType" = some (.str "job.completed")
      ∧ lookupKey ckvs "eventId" = some (.str env.freshEventId)
      ∧ lookupKey ckvs "occurredAt" = some (.str env.nowIso)
      ∧ lookupKey ckvs "producer"
          = some (.obj (setKey pkvs "service" (.str "processor")))
      ∧ (∀ k, k ≠ "eventType" → k ≠ "eventId" → k ≠ "occurredAt" →
          k ≠ "producer" → lookupKey ckvs k = lookupKey kvs k) := by
  have hlook3 : lookupKey (setKey (setKey (setKey kvs "eventType"
      (.str "job.completed")) "eventId" (.str env.freshEventId)) "occurredAt"
      (.str env.nowIso)) "producer" = some (.obj pkvs) := by
    rw [lookupKey_setKey_ne _ _ _ _ (by decide),
      lookupKey_setKey_ne _ _ _ _ (by decide),
      lookupKey_setKey_ne _ _ _ _ (by decide), hprod]
  have hderive : deriveCompletion env (.obj kvs)
      = .ok (.obj (setKey (setKey (setKey (setKey kvs "eventType"
          (.str "job.completed")) "eventId" (.str env.freshEventId))
          "occurredAt" (.str env.nowIso)) "producer"
          (.obj (setKey pkvs "service" (.str "processor"))))) := by
    simp [deriveCompletion, setItem, getItem, hlook3]
  refine ⟨setKey (setKey (setKey (setKey kvs "eventType"
      (.str "job.completed")) "eventId" (.str env.freshEventId)) "occurredAt"
      (.str env.nowIso)) "producer"
      (.obj (setKey pkvs "service" (.str "processor"))),
    ?_, ?_, ?_, ?_, ?_, ?_⟩
  · simp [process_job, tryBody, hp, hv, hjd, hid, hty, hpl, hca, hdb,
      hderive, get_correlation_id]
  · rw [lookupKey_setKey_ne _ _ _ _ (by decide),
      lookupKey_setKey_ne _ _ _ _ (by decide),
      lookupKey_setKey_ne _ _ _ _ (by decide), lookupKey_setKey_self]
  · rw [lookupKey_setKey_ne _ _ _ _ (by decide),
      lookupKey_setKey_ne _ _ _ _ (by decide), lookupKey_setKey_self]
  · rw [lookupKey_setKey_ne _ _ _ _ (by decide), lookupKey_setKey_self]
  · rw [lookupKey_setKey_self]
  · intro k h1 h2 h3 h4
    rw [lookupKey_setKey_ne _ _ _ _ (Ne.symm h4),
      lookupKey_setKey_ne _ _ _ _ (Ne.symm h3),
      lookupKey_setKey_ne _ _ _ _ (Ne.symm h2),
      lookupKey_setKey_ne _ _ _ _ (Ne.symm h1)]

/-- C9 witness: the concrete success run publishes the derived completion
event with the rewritten eventType. -/
theorem C9_completion_event_witness :
    ∃ ckvs : List (String × Json),
      process_job envSuccess 123 =
        [.incProcessed, .dbConnect,
         .dbExec (.upsert (.str "550e8400-e29b-41d4-a716-446655440000")
           (.str "compute") "EXECUTING" (.obj [("data", .str "test")])
           (.str "2025-01-01T00:00:00Z") "EXECUTING"), .dbCommit,
         .dbExec (.setStatusCompleted "COMPLETED"
           (.str "550e8400-e29b-41d4-a716-446655440000")), .dbCommit,
         .publish OUT_QUEUE (.obj ckvs) false,
         .ack 123, .incCompleted, .observeProcessingTime]
      ∧ lookupKey ckvs "eventType" = some (.str "job.completed")
      ∧ lookupKey ckvs "correlationId" = some (.str "corr-abc") := by
  obtain ⟨c, h1, h2, -, -, -, hother⟩ := C9_completion_event envSuccess 123
    [("contractVersion", .str "1.0.0"), ("eventType", .str "job.created"),
     ("eventId", .str "evt-123"), ("occurredAt", .str "2025-01-01T00:00:00Z"),
     ("correlationId", .str "corr-abc"), ("idempotencyKey", .str "idem-xyz"),
     ("producer", .obj [("service", .str "gateway"),
       ("instanceId", .str "gw-1"), ("version", .str "0.1.0")]),
     ("payload", jobFull)]
    [("service", .str "gateway"), ("instanceId", .str "gw-1"),
     ("version", .str "0.1.0")]
    none jobFull (.str "550e8400-e29b-41d4-a716-446655440000") (.str "compute")
    (.obj [("data", .str "test")]) (.str "2025-01-01T00:00:00Z")
    rfl rfl rfl rfl rfl rfl rfl rfl rfl
  refine ⟨c, h1, h2, ?_⟩
  rw [hother "correlationId" (by decide) (by decide) (by decide) (by decide)]
  rfl

/-! ## Aliasing of the shallow copy

Lines 106-110 of main.py mutate `completion_event['producer']` in place after
a shallow `event.copy()`. To state the aliasing, dicts live in an explicit
heap: a heap is a list of dict field tables, a reference is an index, and the
shallow copy duplicates only the top-level field table, sharing every
referenced sub-dict. -/

inductive HVal where
  | vstr (s : String)
  | vref (r : Nat)
  | vother (j : Json)

abbrev Heap := List (List (String × HVal))

/-- Dereference: the field table of the dict at reference `r`. -/
def heapGet (h : Heap) (r : Nat) : List (String × HVal) := h.getD r []

/-- In-place field assignment on the dict at reference `r`. -/
def heapSetField (h : Heap) (r : Nat) (k : String) (v : HVal) : Heap :=
  h.set r (setKey (heapGet h r) k v)

/-- Lines 106-110 of main.py over the heap: `event.copy()` allocates a fresh
top-level dict whose field table is shared (sub-dict references included),
the three top-level assignments update only the copy, and the nested
assignment mutates the dict the `producer` field references — reached through
the copy but shared with the original envelope. -/
def deriveCompletionHeap (freshId nowIso : String) (h : Heap) (e : Nat) :
    Except PyErr (Heap × Nat) :=
  let c := h.length
  let h1 := h ++ [heapGet h e]
  let h2 := heapSetField h1 c "eventType" (.vstr "job.completed")
  let h3 := heapSetField h2 c "eventId" (.vstr freshId)
  let h4 := heapSetField h3 c "occurredAt" (.vstr nowIso)
  match lookupKey (heapGet h4 c) "producer" with
  | some (.vref p) => .ok (heapSetField h4 p "service" (.vstr "processor"), c)
  | some _ => .error .typeError
  | none => .error (.keyError "producer")

@[simp]
theorem heapGet_append_self (h : Heap) (f : List (String × HVal)) :
    heapGet (h ++ [f]) h.length = f := by
  induction h with
  | nil => rfl
  | cons hd tl ih => simpa [heapGet, List.getD] using ih

theorem heapGet_append_lt (h : Heap) (f : List (String × HVal)) (r : Nat)
    (hr : r < h.length) : heapGet (h ++ [f]) r = heapGet h r := by
  induction h generalizing r with
  | nil => simp at hr
  | cons hd tl ih =>
    cases r with
    | zero => rfl
    | succ n =>
      simp only [List.length_cons, Nat.succ_lt_succ_iff] at hr
      simpa [heapGet, List.getD] using ih n hr

theorem heapGet_set_self (h : Heap) (r : Nat) (f : List (String × HVal))
    (hr : r < h.length) : heapGet (h.set r f) r = f := by
  induction h generalizing r with
  | nil => simp at hr
  | cons hd tl ih =>
    cases r with
    | zero => rfl
    | succ n =>
      simp only [List.length_cons, Nat.succ_lt_succ_iff] at hr
      simpa [heapGet, List.getD] using ih n hr

theorem heapGet_set_ne (h : Heap) (r r' : Nat) (f : List (String × HVal))
    (hne : r ≠ r') : heapGet (h.set r f) r' = heapGet h r' := by
  induction h generalizing r r' with
  | nil => rfl
  | cons hd tl ih =>
    cases r with
    | zero =>
      cases r' with
      | zero => exact absurd rfl hne
      | succ n => rfl
    | succ m =>
      cases r' with
      | zero => rfl
      | succ n =>
        simpa [heapGet, List.getD] using ih m n (fun hc => hne (by rw [hc]))

@[simp]
theorem heapSetField_length (h : Heap) (r : Nat) (k : String) (v : HVal) :
    (heapSetField h r k v).length = h.length := by
  simp [heapSetField]

/-- C10: when the envelope at reference `e` holds a `producer` reference to a
distinct dict `p`, completion-event derivation succeeds and, because the copy
is shallow, the completion event's `producer` is the very same reference `p`;
the nested write makes `service` read as processor through the ORIGINAL
envelope as well — the triggering envelope is mutated. -/
theorem C10_shallow_copy_mutates_original (freshId nowIso : String) (h : Heap)
    (e p : Nat) (he : e < h.length) (hpl : p < h.length) (hpe : p ≠ e)
    (hprod : lookupKey (heapGet h e) "producer" = some (.vref p)) :
    ∃ h' : Heap,
      deriveCompletionHeap freshId nowIso h e = .ok (h', h.length)
      ∧ lookupKey (heapGet h' h.length) "producer" = some (.vref p)
      ∧ lookupKey (heapGet h' e) "producer" = some (.vref p)
      ∧ lookupKey (heapGet h' p) "service" = some (.vstr "processor") := by
  have hec : e ≠ h.length := Nat.ne_of_lt he
  have hpc : p ≠ h.length := Nat.ne_of_lt hpl
  have hlen1 : h.length < (h ++ [heapGet h e]).length := by
    simp
  have hgetc : heapGet (heapSetField (heapSetField (heapSetField
      (h ++ [heapGet h e]) h.length "eventType" (.vstr "job.completed"))
      h.length "eventId" (.vstr freshId)) h.length "occurredAt"
      (.vstr nowIso)) h.length
      = setKey (setKey (setKey (heapGet h e) "eventType"
          (.vstr "job.completed")) "eventId" (.vstr freshId)) "occurredAt"
          (.vstr nowIso) := by
    rw [heapSetField, heapGet_set_self _ _ _ (by simpa using hlen1),
      heapSetField, heapGet_set_self _ _ _ (by simpa using hlen1),
      heapSetField, heapGet_set_self _ _ _ hlen1, heapGet_append_self]
  have hgete : heapGet (heapSetField (heapSetField (heapSetField
      (h ++ [heapGet h e]) h.length "eventType" (.vstr "job.completed"))
      h.length "eventId" (.vstr freshId)) h.length "occurredAt"
      (.vstr nowIso)) e = heapGet h e := by
    rw [heapSetField, heapGet_set_ne _ _ _ _ (Ne.symm hec),
      heapSetField, heapGet_set_ne _ _ _ _ (Ne.symm hec),
      heapSetField, heapGet_set_ne _ _ _ _ (Ne.symm hec),
      heapGet_append_lt _ _ _ he]
  have hlookc : lookupKey (heapGet (heapSetField (heapSetField (heapSetField
      (h ++ [heapGet h e]) h.length "eventType" (.vstr "job.completed"))
      h.length "eventId" (.vstr freshId)) h.length "occurredAt"
      (.vstr nowIso)) h.length) "producer" = some (.vref p) := by
    rw [hgetc, lookupKey_setKey_ne _ _ _ _ (by decide),
      lookupKey_setKey_ne _ _ _ _ (by decide),
      lookupKey_setKey_ne _ _ _ _ (by decide), hprod]
  refine ⟨heapSetField (heapSetField (heapSetField (heapSetField
      (h ++ [heapGet h e]) h.length "eventType" (.vstr "job.completed"))
      h.length "eventId" (.vstr freshId)) h.length "occurredAt"
      (.vstr nowIso)) p "service" (.vstr "processor"), ?_, ?_, ?_, ?_⟩
  · simp only [deriveCompletionHeap, hlookc]
  · rw [heapSetField, heapGet_set_ne _ _ _ _ hpc, hgetc,
      lookupKey_setKey_ne _ _ _ _ (by decide),
      lookupKey_setKey_ne _ _ _ _ (by decide),
      lookupKey_setKey_ne _ _ _ _ (by decide), hprod]
  · rw [heapSetField, heapGet_set_ne _ _ _ _ hpe, hgete, hprod]
  · rw [heapSetField, heapGet_set_self, lookupKey_setKey_self]
    simp only [heapSetField_length, List.length_append, List.length_singleton]
    exact Nat.lt_succ_of_lt hpl

/-- Concrete two-dict heap for the C10 witness: dict 0 is the envelope, dict
1 its producer. -/
def heapC10 : Heap :=
  [[("eventType", .vstr "job.created"), ("producer", .vref 1),
    ("correlationId", .vstr "corr-abc")],
   [("service", .vstr "gateway"), ("instanceId", .vstr "gw-1")]]

/-- C10 witness: after derivation on the concrete heap, reading the ORIGINAL
envelope's producer.service yields processor. -/
theorem C10_shallow_copy_mutates_original_witness :
    ∃ h' : Heap,
      deriveCompletionHeap "new-event-id" "2025-01-01T00:00:00Z" heapC10 0
        = .ok (h', 2)
      ∧ lookupKey (heapGet h' 0) "producer" = some (.vref 1)
      ∧ lookupKey (heapGet h' 1) "service" = some (.vstr "processor") := by
  obtain ⟨h', h1, -, h3, h4⟩ := C10_shallow_copy_mutates_original
    "new-event-id" "2025-01-01T00:00:00Z" heapC10 0 1 (by decide) (by decide)
    (by decide) rfl
  exact ⟨h', h1, h3, h4⟩

end OddDemo
